import Mathlib

/-!
Verification of the respirometry analysis pipeline in `src/main.py`.

The script ingests tab-delimited oxygen/temperature exports, reshapes them
into a tidy long-form table (`flatten_data`), extracts experiment metadata
from file names (`get_exp_conditions_from_file_name`), and fits per-channel
linear regressions over fixed light/dark time windows
(`get_reaction_rates_df`).

Embedding conventions:
* Python strings are modelled as their sequence of code points (`List Char`);
  the Python string primitives used by the script (`split`, `in`, `int`,
  indexing, `replace`) are modelled by structurally recursive functions so
  that every definition is kernel-computable.
* pandas DataFrames are modelled as lists of records (one structure per
  table schema); `DataFrame.melt` is modelled by its documented semantics:
  the output stacks, for each value column in the given order, one copy of
  every input row tagged with that column.
* Numeric samples handed to the regression are modelled over `ℚ` (the claims
  about the regression are exact statements about ideal arithmetic);
  `scipy.stats.linregress` is modelled by the closed-form ordinary
  least-squares formulas it implements.
* Python exceptions are modelled with `Except`, the error message carrying
  the corresponding Python message text.
-/

namespace FireSting

/-- A Python string: its sequence of code points. -/
abbrev PyStr := List Char

/-- Model of Python `content.split(sep)` for a one-character separator
`sep` (the script only splits on a newline and on a space): split at every
occurrence of the character, keeping empty segments, as Python does. -/
def splitOnChar (sep : Char) : PyStr → List PyStr
  | [] => [[]]
  | x :: xs =>
    if x = sep then [] :: splitOnChar sep xs
    else
      match splitOnChar sep xs with
      | [] => [[x]]
      | h :: t => (x :: h) :: t

/-- Auxiliary for `containsSub`: Boolean prefix test on code points. -/
def listPrefixB : PyStr → PyStr → Bool
  | [], _ => true
  | _ :: _, [] => false
  | a :: as, b :: bs => a = b && listPrefixB as bs

/-- Model of the Python substring test `needle in hay`. -/
def containsSub (needle : PyStr) : PyStr → Bool
  | [] => needle.isEmpty
  | c :: rest => listPrefixB needle (c :: rest) || containsSub needle rest

/-- Auxiliary for `pyInt`: fold a digit sequence into a number, failing on
any non-digit character. -/
def digitsToNatAux : List Char → Nat → Option Nat
  | [], acc => some acc
  | c :: cs, acc =>
    if c.isDigit then digitsToNatAux cs (acc * 10 + (c.toNat - '0'.toNat))
    else none

/-- All-digit parse of a nonempty character list. -/
def digitsToNat : List Char → Option Nat
  | [] => none
  | l => digitsToNatAux l 0

/-- Model of the Python builtin `int(...)` on the plain decimal tokens the
script feeds it (optional sign followed by digits); any other shape raises
`ValueError`, modelled as `none`. -/
def pyInt (s : PyStr) : Option Int :=
  match s with
  | '-' :: rest => (digitsToNat rest).map (fun n => -(n : Int))
  | '+' :: rest => (digitsToNat rest).map (fun n => (n : Int))
  | _ => (digitsToNat s).map (fun n => (n : Int))

/-- Model of Python sequence indexing `l[i]` for a nonnegative index:
out-of-range access raises `IndexError`. -/
def pyIndex {α : Type} (l : List α) (i : Nat) : Except PyStr α :=
  match l.get? i with
  | some x => Except.ok x
  | none => Except.error "IndexError: list index out of range".data

/-- Decidable equality for `Except`, so that concrete runs of the fallible
functions can be checked by evaluation. -/
instance instDecEqExcept {ε α : Type} [DecidableEq ε] [DecidableEq α] :
    DecidableEq (Except ε α) := fun x y =>
  match x, y with
  | Except.error a, Except.error b =>
    if h : a = b then isTrue (congrArg Except.error h)
    else isFalse (fun hc => h (Except.error.inj hc))
  | Except.error _, Except.ok _ => isFalse (fun hc => Except.noConfusion hc)
  | Except.ok _, Except.error _ => isFalse (fun hc => Except.noConfusion hc)
  | Except.ok a, Except.ok b =>
    if h : a = b then isTrue (congrArg Except.ok h)
    else isFalse (fun hc => h (Except.ok.inj hc))

/-- `int(...)` with its `ValueError` made explicit. -/
def pyIntE (s : PyStr) : Except PyStr Int :=
  match pyInt s with
  | some n => Except.ok n
  | none => Except.error ("invalid literal for int with base 10: ".data ++ s)

/-- Model of Python `row.replace(a, b)` for one-character `a` and `b`
(the script replaces each tab with a comma). -/
def pyReplaceChar (a b : Char) (s : PyStr) : PyStr :=
  s.map (fun c => if c = a then b else c)

/-! ## FileIngestor (`find_data_start_index`, `read_data`) -/

/-- The header signature searched for in `read_data` (src/main.py line 141). -/
def headerSignature : PyStr :=
  "Date\tTime (HH:MM:SS)\tTime (s)\tComment\tCh1\tCh2\tCh3\tCh4".data

/-- The list `indexes` built by the loop of `find_data_start_index`
(src/main.py lines 113-117): the indexes of the lines of `content` in which
`search_string` occurs as a substring (Python `in`). -/
def header_indexes (content search_string : PyStr) : List Nat :=
  ((splitOnChar '\n' content).enum.filter
    (fun p => containsSub search_string p.2)).map Prod.fst

/-- src/main.py lines 97-121: find the index of the row containing the
search string; raise `ValueError` unless exactly one such row exists. -/
def find_data_start_index (content search_string : PyStr) : Except PyStr Nat :=
  let indexes := header_indexes content search_string
  if indexes.length ≠ 1 then
    Except.error "Found more than one data start index".data
  else
    pyIndex indexes 0

/-- Number of lines of `content` in which `search_string` occurs as a
substring: the occurrence count used by the header-detection contract. -/
def headerOccurrences (content search_string : PyStr) : Nat :=
  (splitOnChar '\n' content).countP (fun row => containsSub search_string row)

/-- Number of lines of `content` exactly equal to the header signature;
a specification-side count used to state claim C10 (the code itself never
compares whole lines). -/
def exactHeaderLineCount (content : PyStr) : Nat :=
  (splitOnChar '\n' content).countP (fun row => decide (row = headerSignature))

/-- src/main.py lines 124-148 (`read_data`, minus the file IO): locate the
header, keep the lines from the header on, drop the final line, and
re-delimit each remaining line from tabs to commas. -/
def read_data (content : PyStr) : Except PyStr (List PyStr) := do
  let data_start_index ← find_data_start_index content headerSignature
  let trimmed := (splitOnChar '\n' content).drop data_start_index
  let trimmed := trimmed.dropLast
  pure (trimmed.map (pyReplaceChar '\t' ','))

/-! ## Reshaper (`flatten_data`) -/

/-- One row of the wide per-file table after the column cleanup of
src/main.py lines 48-52: file name, date, time, elapsed time, the four
oxygen columns (labelled 1-4), and the four temperature columns. All
fields are carried as text; `main` coerces the numeric ones later. -/
structure RawRow where
  file_name : PyStr
  date : PyStr
  time : PyStr
  elapsed_time : PyStr
  o1 : PyStr
  o2 : PyStr
  o3 : PyStr
  o4 : PyStr
  t1 : PyStr
  t2 : PyStr
  t3 : PyStr
  t4 : PyStr
  deriving DecidableEq, Repr

/-- One row of `oxygen_data_df`, the result of the first melt of
`flatten_data` (src/main.py line 194): the id columns plus a `channel` tag
and the oxygen value of that channel. -/
structure OxygenRow where
  file_name : PyStr
  date : PyStr
  time : PyStr
  elapsed_time : PyStr
  t1 : PyStr
  t2 : PyStr
  t3 : PyStr
  t4 : PyStr
  channel : Nat
  O2 : PyStr
  deriving DecidableEq, Repr

/-- One row of `merged_data`, the result of the second melt of
`flatten_data` (src/main.py line 199): the id columns plus the default
pandas `variable` column (here `var_col`, recording which temperature
column the value came from) and the `temperature` value. -/
structure MeltedRow where
  file_name : PyStr
  date : PyStr
  time : PyStr
  elapsed_time : PyStr
  O2 : PyStr
  channel : Nat
  var_col : Nat
  temperature : PyStr
  deriving DecidableEq, Repr

/-- One row of the tidy dataset returned by `flatten_data` after the
`variable` column is dropped (src/main.py line 205). -/
structure TidyRecord where
  file_name : PyStr
  date : PyStr
  time : PyStr
  elapsed_time : PyStr
  O2 : PyStr
  channel : Nat
  temperature : PyStr
  deriving DecidableEq, Repr

/-- The oxygen column of `RawRow` with label `c` (labels 1-4). -/
def oxygenOfChannel (r : RawRow) : Nat → PyStr
  | 1 => r.o1
  | 2 => r.o2
  | 3 => r.o3
  | _ => r.o4

/-- The temperature column of `OxygenRow` with index `v` (1-4). -/
def temperatureOfVar (r : OxygenRow) : Nat → PyStr
  | 1 => r.t1
  | 2 => r.t2
  | 3 => r.t3
  | _ => r.t4

/-- src/main.py lines 192-194: `melt` of the four oxygen columns
(value_vars `[1, 2, 3, 4]`) with all remaining columns as id columns.
Per the pandas `melt` semantics, the output stacks one copy of every input
row for each value column, in the order the value columns are listed. -/
def melt_oxygen (rows : List RawRow) : List OxygenRow :=
  ([1, 2, 3, 4].map (fun c =>
    rows.map (fun r =>
      { file_name := r.file_name
        date := r.date
        time := r.time
        elapsed_time := r.elapsed_time
        t1 := r.t1
        t2 := r.t2
        t3 := r.t3
        t4 := r.t4
        channel := c
        O2 := oxygenOfChannel r c }))).flatten

/-- src/main.py lines 197-199: `melt` of the four temperature columns with
id columns including `[O2]` and `channel`. Again per the pandas semantics,
the output stacks one copy of every input row for each of the four
temperature columns. -/
def melt_temperature (rows : List OxygenRow) : List MeltedRow :=
  ([1, 2, 3, 4].map (fun v =>
    rows.map (fun r =>
      { file_name := r.file_name
        date := r.date
        time := r.time
        elapsed_time := r.elapsed_time
        O2 := r.O2
        channel := r.channel
        var_col := v
        temperature := temperatureOfVar r v }))).flatten

/-- The missing-data sentinel filtered out in src/main.py line 202. -/
def sentinel : PyStr := "---".data

/-- src/main.py line 205: drop the `variable` column. -/
def dropVarCol (r : MeltedRow) : TidyRecord :=
  { file_name := r.file_name
    date := r.date
    time := r.time
    elapsed_time := r.elapsed_time
    O2 := r.O2
    channel := r.channel
    temperature := r.temperature }

/-- src/main.py lines 175-207 (`flatten_data`): melt the oxygen columns,
melt the temperature columns, drop rows whose oxygen value is the sentinel,
drop the `variable` column. -/
def flatten_data (rows : List RawRow) : List TidyRecord :=
  let oxygen_data_df := melt_oxygen rows
  let merged_data := melt_temperature oxygen_data_df
  let merged_data := merged_data.filter (fun r => r.O2 != sentinel)
  merged_data.map dropVarCol

/-- The tidy dataset of a whole run: src/main.py lines 26-59 concatenate the
per-file tables in the order the files were enumerated and then apply
`flatten_data` to the concatenation. -/
def pipeline_tidy (files : List (List RawRow)) : List TidyRecord :=
  flatten_data files.flatten

/-! ## ConditionExtractor (`get_exp_conditions_from_file_name`) -/

/-- The metadata tuple returned by `get_exp_conditions_from_file_name`
(src/main.py line 248); field names keep the spelling of the source. -/
structure ExperimentConditions where
  expreriment_date : PyStr
  growth_irradiance : Int
  measurement_irradiance : Int
  growth_phase : Int
  deriving DecidableEq, Repr

/-- src/main.py lines 210-248: split the file name on spaces; parse token 0
as the growth irradiance, map token 1 through the fixed irradiance lookup
(raising `ValueError` on any other tag), parse character 1 of token 2 as
the growth phase, and take token 3 verbatim as the date. -/
def get_exp_conditions_from_file_name (file_name : PyStr) :
    Except PyStr ExperimentConditions := do
  let split_file_name := splitOnChar ' ' file_name
  let growth_irradiance ← pyIntE (← pyIndex split_file_name 0)
  let measurement_irradiance_str ← pyIndex split_file_name 1
  let measurement_irradiance ←
    if measurement_irradiance_str = "invivo".data then
      pure (100 : Int)
    else if measurement_irradiance_str = "max".data then
      pure (3000 : Int)
    else
      Except.error ("Invalid measurement irradiance: ".data ++
        measurement_irradiance_str)
  let tok2 ← pyIndex split_file_name 2
  let phase_char ← pyIndex tok2 1
  let growth_phase ← pyIntE [phase_char]
  let expreriment_date ← pyIndex split_file_name 3
  pure
    { expreriment_date := expreriment_date
      growth_irradiance := growth_irradiance
      measurement_irradiance := measurement_irradiance
      growth_phase := growth_phase }

/-! ## RateEstimator (src/main.py lines 377-388 and `scipy.stats.linregress`) -/

/-- One tidy sample of one channel as seen by the rate estimation, after
the numeric coercion of src/main.py lines 62-63: elapsed time and oxygen
concentration. -/
structure Sample where
  t : ℚ
  o2 : ℚ
  deriving DecidableEq, Repr

/-- src/main.py line 381: the light-phase window, samples with elapsed
time between 10 and 50 seconds inclusive. -/
def light_data (channel_data : List Sample) : List Sample :=
  channel_data.filter (fun s => decide (10 ≤ s.t ∧ s.t ≤ 50))

/-- src/main.py line 383: the dark-phase window, samples with elapsed
time between 70 and 230 seconds inclusive. -/
def dark_data (channel_data : List Sample) : List Sample :=
  channel_data.filter (fun s => decide (70 ≤ s.t ∧ s.t ≤ 230))

/-- Mean elapsed time of a sample list. -/
def meanTime (l : List Sample) : ℚ := (l.map Sample.t).sum / l.length

/-- Mean oxygen concentration of a sample list. -/
def meanOxy (l : List Sample) : ℚ := (l.map Sample.o2).sum / l.length

/-- Sum of squared time deviations. -/
def ssxx (l : List Sample) : ℚ :=
  (l.map (fun s => (s.t - meanTime l) ^ 2)).sum

/-- Sum of time/oxygen cross deviations. -/
def ssxy (l : List Sample) : ℚ :=
  (l.map (fun s => (s.t - meanTime l) * (s.o2 - meanOxy l))).sum

/-- Sum of squared oxygen deviations. -/
def ssyy (l : List Sample) : ℚ :=
  (l.map (fun s => (s.o2 - meanOxy l) ^ 2)).sum

/-- Model of the slope returned by `scipy.stats.linregress` (src/main.py
lines 386-388): the ordinary least-squares slope. -/
def slope (l : List Sample) : ℚ := ssxy l / ssxx l

/-- Model of the intercept returned by `scipy.stats.linregress`. -/
def intercept (l : List Sample) : ℚ := meanOxy l - slope l * meanTime l

/-- Model of the Pearson correlation coefficient returned by
`scipy.stats.linregress` (exact real arithmetic in place of floats). -/
noncomputable def r_value (l : List Sample) : ℝ :=
  (ssxy l : ℝ) / Real.sqrt ((ssxx l : ℝ) * (ssyy l : ℝ))

/-! ## Concrete inputs used by witnesses and counterexamples -/

/-- A concrete valid raw row, with four distinct temperature readings and
no sentinel oxygen value. -/
def rA : RawRow :=
  { file_name := "200 invivo p1 2023-01-01".data
    date := "1.1.2023".data
    time := "10:00:00".data
    elapsed_time := "0".data
    o1 := "250.1".data
    o2 := "251.2".data
    o3 := "252.3".data
    o4 := "253.4".data
    t1 := "20.1".data
    t2 := "21.2".data
    t3 := "22.3".data
    t4 := "23.4".data }

/-- A second concrete raw row from a different file. -/
def rB : RawRow :=
  { file_name := "200 max p2 2023-01-02".data
    date := "2.1.2023".data
    time := "11:00:00".data
    elapsed_time := "1".data
    o1 := "260.1".data
    o2 := "261.2".data
    o3 := "262.3".data
    o4 := "263.4".data
    t1 := "24.1".data
    t2 := "25.2".data
    t3 := "26.3".data
    t4 := "27.4".data }

/-- The first tidy record produced by `flatten_data [rA]`. -/
def tidyFirst : TidyRecord :=
  { file_name := "200 invivo p1 2023-01-01".data
    date := "1.1.2023".data
    time := "10:00:00".data
    elapsed_time := "0".data
    O2 := "250.1".data
    channel := 1
    temperature := "20.1".data }

/-- A concrete file content in which the exact header line appears once
but the signature also occurs embedded inside a second line. -/
def c10_content : PyStr :=
  ("preamble\n" ++
   "Date\tTime (HH:MM:SS)\tTime (s)\tComment\tCh1\tCh2\tCh3\tCh4" ++
   "\nnote Date\tTime (HH:MM:SS)\tTime (s)\tComment\tCh1\tCh2\tCh3\tCh4 extra" ++
   "\n42\n").data

/-- Two samples lying exactly on the line o2 = 2 t + 5 inside the light
window. -/
def lC8 : List Sample := [⟨10, 25⟩, ⟨50, 105⟩]

/-! ## Helper lemmas -/

lemma except_bind_ok {ε α β : Type} (a : α) (f : α → Except ε β) :
    (Except.ok a : Except ε α) >>= f = f a := rfl

lemma except_bind_error {ε α β : Type} (e : ε) (f : α → Except ε β) :
    (Except.error e : Except ε α) >>= f = Except.error e := rfl

lemma except_pure_eq {ε α : Type} (a : α) :
    (pure a : Except ε α) = Except.ok a := rfl

/-- Filtering an enumerated list on a predicate over the entries keeps as
many elements as filtering the plain list. -/
lemma enumFrom_filter_snd_length {α : Type} (p : α → Bool) (n : Nat) (l : List α) :
    ((List.enumFrom n l).filter (fun q => p q.2)).length = (l.filter p).length := by
  induction l generalizing n with
  | nil => rfl
  | cons a t ih =>
    simp only [List.enumFrom, List.filter_cons]
    cases hpa : p a
    · simpa [hpa] using ih (n + 1)
    · simpa [hpa] using ih (n + 1)

/-- The `indexes` list of `find_data_start_index` has one entry per line in
which the search string occurs. -/
lemma header_indexes_length (content s : PyStr) :
    (header_indexes content s).length = headerOccurrences content s := by
  rw [header_indexes, headerOccurrences, List.length_map, List.countP_eq_length_filter]
  exact enumFrom_filter_snd_length _ 0 _

/-- `find_data_start_index` succeeds exactly when the search string occurs
in exactly one line. -/
lemma find_ok_iff (content s : PyStr) :
    (∃ i, find_data_start_index content s = Except.ok i) ↔
      headerOccurrences content s = 1 := by
  simp only [find_data_start_index]
  constructor
  · rintro ⟨i, hi⟩
    by_cases h : (header_indexes content s).length ≠ 1
    · rw [if_pos h] at hi
      exact absurd hi (fun hc => Except.noConfusion hc)
    · push_neg at h
      rw [← header_indexes_length]
      exact h
  · intro h1
    have hlen : (header_indexes content s).length = 1 := by
      rw [header_indexes_length]
      exact h1
    obtain ⟨a, ha⟩ := List.length_eq_one.mp hlen
    refine ⟨a, ?_⟩
    rw [if_neg (by rw [hlen]; simp), ha]
    rfl

/-- Permuting the raw rows permutes the first melt output. -/
lemma perm_melt_oxygen {rows₁ rows₂ : List RawRow} (h : rows₁.Perm rows₂) :
    (melt_oxygen rows₁).Perm (melt_oxygen rows₂) := by
  simp only [melt_oxygen, List.map_cons, List.map_nil, List.flatten_cons,
    List.flatten_nil, List.append_nil]
  exact (h.map _).append ((h.map _).append ((h.map _).append (h.map _)))

/-- Permuting the oxygen rows permutes the second melt output. -/
lemma perm_melt_temperature {r₁ r₂ : List OxygenRow} (h : r₁.Perm r₂) :
    (melt_temperature r₁).Perm (melt_temperature r₂) := by
  simp only [melt_temperature, List.map_cons, List.map_nil, List.flatten_cons,
    List.flatten_nil, List.append_nil]
  exact (h.map _).append ((h.map _).append ((h.map _).append (h.map _)))

/-- Permuting the raw rows permutes the tidy records. -/
lemma perm_flatten_data {rows₁ rows₂ : List RawRow} (h : rows₁.Perm rows₂) :
    (flatten_data rows₁).Perm (flatten_data rows₂) := by
  simp only [flatten_data]
  exact ((perm_melt_temperature (perm_melt_oxygen h)).filter _).map _

/-- Sum of an affine image of a sample list. -/
lemma list_sum_map_affine (L : List Sample) (f g : Sample → ℚ) (m c : ℚ)
    (h : ∀ s ∈ L, f s = m * g s + c) :
    (L.map f).sum = m * (L.map g).sum + c * L.length := by
  induction L with
  | nil => simp
  | cons a t ih =>
    have ha := h a (List.mem_cons_self a t)
    have iht := ih (fun s hs => h s (List.mem_cons_of_mem a hs))
    simp only [List.map_cons, List.sum_cons, List.length_cons, ha, iht]
    push_cast
    ring

lemma length_cast_ne_zero (L : List Sample) (hL : L ≠ []) : (L.length : ℚ) ≠ 0 := by
  have h1 : L.length ≠ 0 := (List.length_pos.mpr hL).ne'
  exact_mod_cast h1

/-- The mean oxygen value of samples lying on a line is the line value at
the mean time. -/
lemma meanOxy_affine (L : List Sample) (m c : ℚ) (hL : L ≠ [])
    (h : ∀ s ∈ L, s.o2 = m * s.t + c) :
    meanOxy L = m * meanTime L + c := by
  have hn : (L.length : ℚ) ≠ 0 := length_cast_ne_zero L hL
  rw [meanOxy, meanTime, list_sum_map_affine L Sample.o2 Sample.t m c h]
  field_simp

lemma ssxy_affine (L : List Sample) (m c : ℚ) (hL : L ≠ [])
    (h : ∀ s ∈ L, s.o2 = m * s.t + c) :
    ssxy L = m * ssxx L := by
  rw [ssxy, ssxx, ← List.sum_map_mul_left]
  apply congrArg List.sum
  apply List.map_congr_left
  intro s hs
  rw [h s hs, meanOxy_affine L m c hL h]
  ring

lemma ssyy_affine (L : List Sample) (m c : ℚ) (hL : L ≠ [])
    (h : ∀ s ∈ L, s.o2 = m * s.t + c) :
    ssyy L = m ^ 2 * ssxx L := by
  rw [ssyy, ssxx, ← List.sum_map_mul_left]
  apply congrArg List.sum
  apply List.map_congr_left
  intro s hs
  rw [h s hs, meanOxy_affine L m c hL h]
  ring

/-- Two samples with distinct times force a positive time variance. -/
lemma ssxx_pos (L : List Sample) (a b : Sample) (ha : a ∈ L) (hb : b ∈ L)
    (hab : a.t ≠ b.t) : 0 < ssxx L := by
  have hex : ∃ s ∈ L, s.t ≠ meanTime L := by
    by_contra hno
    push_neg at hno
    exact hab ((hno a ha).trans (hno b hb).symm)
  obtain ⟨s, hs, hst⟩ := hex
  have hmem : (s.t - meanTime L) ^ 2 ∈ L.map (fun x => (x.t - meanTime L) ^ 2) :=
    List.mem_map_of_mem _ hs
  have hpos : 0 < (s.t - meanTime L) ^ 2 :=
    pow_two_pos_of_ne_zero (sub_ne_zero.mpr hst)
  rw [ssxx]
  refine lt_of_lt_of_le hpos (List.single_le_sum ?_ _ hmem)
  intro x hx
  obtain ⟨y, -, rfl⟩ := List.mem_map.mp hx
  exact sq_nonneg _

/-- Ordinary least squares on samples lying exactly on a rising line
recovers the slope, the intercept, and correlation one. -/
theorem linregress_on_line (L : List Sample) (m c : ℚ) (hm : 0 < m)
    (h : ∀ s ∈ L, s.o2 = m * s.t + c)
    (a b : Sample) (ha : a ∈ L) (hb : b ∈ L) (hab : a.t ≠ b.t) :
    slope L = m ∧ intercept L = c ∧ r_value L = 1 := by
  have hL : L ≠ [] := by
    intro h0
    rw [h0] at ha
    exact List.not_mem_nil a ha
  have hxx : 0 < ssxx L := ssxx_pos L a b ha hb hab
  have hxy : ssxy L = m * ssxx L := ssxy_affine L m c hL h
  have hyy : ssyy L = m ^ 2 * ssxx L := ssyy_affine L m c hL h
  have hslope : slope L = m := by
    rw [slope, hxy, mul_div_assoc, div_self hxx.ne', mul_one]
  refine ⟨hslope, ?_, ?_⟩
  · rw [intercept, hslope, meanOxy_affine L m c hL h]
    ring
  · have hm2 : (0 : ℝ) < (m : ℚ) := by exact_mod_cast hm
    have hX : (0 : ℝ) < ((ssxx L : ℚ) : ℝ) := by exact_mod_cast hxx
    rw [r_value, hxy, hyy]
    push_cast
    have hsq : ((ssxx L : ℚ) : ℝ) * (((m : ℚ) : ℝ) ^ 2 * ((ssxx L : ℚ) : ℝ)) =
        (((m : ℚ) : ℝ) * ((ssxx L : ℚ) : ℝ)) ^ 2 := by ring
    rw [hsq, Real.sqrt_sq (le_of_lt (mul_pos hm2 hX))]
    exact div_self (mul_pos hm2 hX).ne'

/-! ## Claims -/

/-- Claim C1: the claim asserts that every tidy record carries the
temperature reading of its own channel. The code violates this: the second
melt of `flatten_data` stacks all four temperature columns against every
oxygen record and then drops the disambiguating `variable` column, so the
concrete single-row input `rA` yields a record tagged channel 1 whose
temperature is the channel 2 reading, different from the channel 1
reading. -/
theorem c1_temperature_mismatch :
    ∃ r ∈ flatten_data [rA], r.channel = 1 ∧ r.temperature = rA.t2 ∧
      rA.t2 ≠ rA.t1 := by
  decide

/-- Claim C2: the claim asserts at most 4 N tidy records for N raw rows.
The code violates this: the two chained melts multiply the row count by
16, so the single valid raw row `rA` (with no sentinel values) yields 16
records, not at most 4. -/
theorem c2_melt_multiplicity :
    (flatten_data [rA]).length = 16 ∧
    ¬((flatten_data [rA]).length ≤ 4 * [rA].length) := by
  decide

/-- Claim C3 counterexample: swapping the enumeration order of two input
files changes the tidy dataset, so the pipeline output is not independent
of ingestion order (no deterministic sort is applied anywhere). -/
theorem c3_order_dependence :
    pipeline_tidy [[rA], [rB]] ≠ pipeline_tidy [[rB], [rA]] := by
  decide

/-- Claim C3 (amended): the pipeline is a pure function of the ordered
file list, and permuting the enumeration order permutes the tidy records
(the multiset of records is order independent, their order is not). -/
theorem c3_enumeration_perm (files₁ files₂ : List (List RawRow))
    (h : files₁.Perm files₂) :
    (pipeline_tidy files₁).Perm (pipeline_tidy files₂) :=
  perm_flatten_data h.flatten

/-- Witness for C3 (amended) at a concrete pair of file lists. -/
theorem c3_enumeration_perm_witness :
    (pipeline_tidy [[rA], [rB]]).Perm (pipeline_tidy [[rB], [rA]]) :=
  c3_enumeration_perm [[rA], [rB]] [[rB], [rA]] (List.Perm.swap [rB] [rA] [])

/-- Claim C4: `read_data` succeeds exactly when the header signature
occurs (as a Python substring) in exactly one line of the content, and
fails with the `ValueError` of `find_data_start_index` otherwise. -/
theorem c4_header_detection (content : PyStr) :
    ((∃ rows, read_data content = Except.ok rows) ↔
      headerOccurrences content headerSignature = 1) ∧
    ((∃ msg, read_data content = Except.error msg) ↔
      headerOccurrences content headerSignature ≠ 1) := by
  cases hf : find_data_start_index content headerSignature with
  | ok i =>
    have hocc : headerOccurrences content headerSignature = 1 :=
      (find_ok_iff _ _).mp ⟨i, hf⟩
    have hr : read_data content = Except.ok
        ((((splitOnChar '\n' content).drop i).dropLast).map (pyReplaceChar '\t' ',')) := by
      unfold read_data
      rw [hf]
      rfl
    constructor
    · exact ⟨fun _ => hocc, fun _ => ⟨_, hr⟩⟩
    · constructor
      · rintro ⟨msg, hm⟩
        rw [hr] at hm
        exact Except.noConfusion hm
      · intro h
        exact absurd hocc h
  | error e =>
    have hocc : headerOccurrences content headerSignature ≠ 1 := by
      intro h1
      obtain ⟨i, hi⟩ := (find_ok_iff _ _).mpr h1
      rw [hf] at hi
      exact Except.noConfusion hi
    have hr : read_data content = Except.error e := by
      unfold read_data
      rw [hf]
      rfl
    constructor
    · constructor
      · rintro ⟨rows, hm⟩
        rw [hr] at hm
        exact Except.noConfusion hm
      · intro h1
        exact absurd h1 hocc
    · exact ⟨fun _ => hocc, fun _ => ⟨e, hr⟩⟩

/-- Claim C5: a file identifier that splits into an integer token, a known
irradiance tag, a phase token with a digit at character position 1, a date
token, and arbitrary trailing tokens is parsed into the corresponding
`ExperimentConditions`, with the date taken verbatim. -/
theorem c5_condition_extraction (file_name : PyStr)
    (t0 t1 t2 t3 : PyStr) (rest : List PyStr)
    (hsplit : splitOnChar ' ' file_name = t0 :: t1 :: t2 :: t3 :: rest)
    (n : Int) (h0 : pyInt t0 = some n)
    (m : Int)
    (h1 : t1 = "invivo".data ∧ m = 100 ∨ t1 = "max".data ∧ m = 3000)
    (c : Char) (h2 : t2.get? 1 = some c)
    (p : Int) (hp : pyInt [c] = some p) :
    get_exp_conditions_from_file_name file_name =
      Except.ok
        { expreriment_date := t3
          growth_irradiance := n
          measurement_irradiance := m
          growth_phase := p } := by
  have e0 : pyIndex (t0 :: t1 :: t2 :: t3 :: rest) 0 = Except.ok t0 := rfl
  have e1 : pyIndex (t0 :: t1 :: t2 :: t3 :: rest) 1 = Except.ok t1 := rfl
  have e2 : pyIndex (t0 :: t1 :: t2 :: t3 :: rest) 2 = Except.ok t2 := rfl
  have e3 : pyIndex (t0 :: t1 :: t2 :: t3 :: rest) 3 = Except.ok t3 := rfl
  have ephase : pyIndex t2 1 = Except.ok c := by
    unfold pyIndex
    rw [h2]
  have eint0 : pyIntE t0 = Except.ok n := by
    simp [pyIntE, h0]
  have eintp : pyIntE [c] = Except.ok p := by
    simp [pyIntE, hp]
  rcases h1 with ⟨rfl, rfl⟩ | ⟨rfl, rfl⟩
  · simp only [get_exp_conditions_from_file_name, hsplit, e0, e1, e2, e3,
      ephase, eint0, eintp, except_bind_ok, except_pure_eq, if_true]
  · simp only [get_exp_conditions_from_file_name, hsplit, e0, e1, e2, e3,
      ephase, eint0, eintp, except_bind_ok, except_pure_eq]
    rw [if_neg (by decide), if_true]

/-- Witness for C5: the identifier of the specification example parses to
growth irradiance 200, measurement irradiance 100, phase 1, and the
verbatim date. -/
theorem c5_condition_extraction_witness :
    get_exp_conditions_from_file_name "200 invivo p1 2023-01-01".data =
      Except.ok
        { expreriment_date := "2023-01-01".data
          growth_irradiance := 200
          measurement_irradiance := 100
          growth_phase := 1 } :=
  c5_condition_extraction "200 invivo p1 2023-01-01".data "200".data
    "invivo".data "p1".data "2023-01-01".data [] (by decide) 200 (by decide)
    100 (Or.inl ⟨rfl, rfl⟩) '1' (by decide) 1 (by decide)

/-- Claim C6: an identifier whose second token is neither of the two known
irradiance tags makes the extractor raise (no default is substituted). -/
theorem c6_unknown_tag (file_name : PyStr) (t0 t1 : PyStr) (rest : List PyStr)
    (hsplit : splitOnChar ' ' file_name = t0 :: t1 :: rest)
    (h1 : t1 ≠ "invivo".data) (h2 : t1 ≠ "max".data) :
    ∃ msg, get_exp_conditions_from_file_name file_name = Except.error msg := by
  have e0 : pyIndex (t0 :: t1 :: rest) 0 = Except.ok t0 := rfl
  have e1 : pyIndex (t0 :: t1 :: rest) 1 = Except.ok t1 := rfl
  cases hint : pyIntE t0 with
  | error e =>
    refine ⟨e, ?_⟩
    simp only [get_exp_conditions_from_file_name, hsplit, e0, e1, hint,
      except_bind_ok, except_bind_error]
  | ok n =>
    refine ⟨"Invalid measurement irradiance: ".data ++ t1, ?_⟩
    simp only [get_exp_conditions_from_file_name, hsplit, e0, e1, hint,
      except_bind_ok]
    rw [if_neg h1, if_neg h2]
    simp only [except_bind_error]

/-- Witness for C6: the identifier of the specification example with the
unknown tag raises. -/
theorem c6_unknown_tag_witness :
    ∃ msg, get_exp_conditions_from_file_name "200 unknown p1 2023-01-01".data =
      Except.error msg :=
  c6_unknown_tag "200 unknown p1 2023-01-01".data "200".data "unknown".data
    ["p1".data, "2023-01-01".data] (by decide) (by decide) (by decide)

/-- Claim C7: a sample of a channel is in the light regression window
exactly when its elapsed time lies in [10, 50], in the dark window exactly
when it lies in [70, 230]; no sample is in both windows, and a sample
outside both windows contributes to neither regression. -/
theorem c7_phase_windows (l : List Sample) (s : Sample) (hs : s ∈ l) :
    (s ∈ light_data l ↔ 10 ≤ s.t ∧ s.t ≤ 50) ∧
    (s ∈ dark_data l ↔ 70 ≤ s.t ∧ s.t ≤ 230) ∧
    ¬(s ∈ light_data l ∧ s ∈ dark_data l) ∧
    (¬(10 ≤ s.t ∧ s.t ≤ 50) → ¬(70 ≤ s.t ∧ s.t ≤ 230) →
      s ∉ light_data l ∧ s ∉ dark_data l) := by
  have hl : s ∈ light_data l ↔ 10 ≤ s.t ∧ s.t ≤ 50 := by
    simp [light_data, List.mem_filter, hs]
  have hd : s ∈ dark_data l ↔ 70 ≤ s.t ∧ s.t ≤ 230 := by
    simp [dark_data, List.mem_filter, hs]
  refine ⟨hl, hd, ?_, ?_⟩
  · rintro ⟨h1, h2⟩
    have ha := (hl.mp h1).2
    have hb := (hd.mp h2).1
    linarith
  · intro h1 h2
    exact ⟨fun hm => h1 (hl.mp hm), fun hm => h2 (hd.mp hm)⟩

/-- Witness for C7 at a concrete sample at 30 seconds: in the light
window, not in the dark window. -/
theorem c7_phase_windows_witness :
    (⟨30, 1⟩ : Sample) ∈ light_data [⟨30, 1⟩] ∧
    (⟨30, 1⟩ : Sample) ∉ dark_data [⟨30, 1⟩] := by
  have h := c7_phase_windows [⟨30, 1⟩] ⟨30, 1⟩ (List.mem_cons_self _ _)
  have hlight : (⟨30, 1⟩ : Sample) ∈ light_data [⟨30, 1⟩] := h.1.mpr (by decide)
  exact ⟨hlight, fun hd => h.2.2.1 ⟨hlight, hd⟩⟩

/-- Claim C8: on a channel whose light-window samples lie exactly on the
line o2 = 2 t + 5 with at least two distinct times, the light-phase
regression returns slope 2, intercept 5, and correlation 1. -/
theorem c8_light_phase_regression (l : List Sample)
    (hline : ∀ s ∈ light_data l, s.o2 = 2 * s.t + 5)
    (a b : Sample) (ha : a ∈ light_data l) (hb : b ∈ light_data l)
    (hab : a.t ≠ b.t) :
    slope (light_data l) = 2 ∧ intercept (light_data l) = 5 ∧
    r_value (light_data l) = 1 :=
  linregress_on_line (light_data l) 2 5 (by norm_num) hline a b ha hb hab

/-- Witness for C8 at two concrete samples on the line. -/
theorem c8_light_phase_regression_witness :
    slope (light_data lC8) = 2 ∧ intercept (light_data lC8) = 5 ∧
    r_value (light_data lC8) = 1 :=
  c8_light_phase_regression lC8
    (by
      intro s hs
      have he : light_data lC8 = lC8 := by decide
      rw [he] at hs
      simp only [lC8, List.mem_cons, List.not_mem_nil, or_false] at hs
      rcases hs with rfl | rfl <;> norm_num)
    ⟨10, 25⟩ ⟨50, 105⟩ (by decide) (by decide) (by decide)

/-- Claim C9: no tidy record output by `flatten_data` carries the
missing-data sentinel as its oxygen value. -/
theorem c9_sentinel_filter (rows : List RawRow) (r : TidyRecord)
    (hr : r ∈ flatten_data rows) : r.O2 ≠ sentinel := by
  simp only [flatten_data] at hr
  obtain ⟨m, hm, rfl⟩ := List.mem_map.mp hr
  have h2 := (List.mem_filter.mp hm).2
  simpa [dropVarCol, bne_iff_ne] using h2

/-- Witness for C9 at the first record of a concrete run. -/
theorem c9_sentinel_filter_witness :
    tidyFirst ∈ flatten_data [rA] ∧ tidyFirst.O2 ≠ sentinel :=
  ⟨by decide, c9_sentinel_filter [rA] tidyFirst (by decide)⟩

/-- Claim C10: header detection counts substring occurrences, so a content
whose exact header line is unique but which embeds the signature inside one
more line is rejected with the duplicate-header error. -/
theorem c10_substring_header_detection :
    exactHeaderLineCount c10_content = 1 ∧
    headerOccurrences c10_content headerSignature = 2 ∧
    find_data_start_index c10_content headerSignature =
      Except.error "Found more than one data start index".data := by
  decide

end FireSting
